import Mathlib

/-
Verification of the Epic Manifest Downloader orchestration core
(src/main.py) against its natural-language specification.

The embedding is a shallow one: the job body DownloadThread.run is
modelled as a function from an environment of external outcomes
(HTTP fetch result, local file read result, the two manifest decoders,
the transfer engine result) to the trace of observable events the body
performs; the Qt window callbacks closeEvent and download_finished are
modelled as traces of the actions they perform.  The URL recognition
regular expression of DownloadThread.url_regex is implemented directly
as an executable matcher.
-/

namespace Emd

/- ----------------------------------------------------------------
   DownloadThread.url_regex (src/main.py line 43):
   re.compile of
   ^https?://(?:www\.)?[-a-zA-Z0-9@:%._\+~#=]\x7b1,256\x7d\.
     [a-zA-Z0-9()]\x7b1,6\x7d\b(?:[-a-zA-Z0-9()@:%_\+.~#?&=/]*)$
   used with .match (anchored at the start).  The matcher below is a
   direct executable implementation: bounded greedy repetition with
   backtracking over the split points, the word boundary test of
   Python re, and the end anchor $ which also accepts a position just
   before a trailing newline.
   ---------------------------------------------------------------- -/

/-- Python re word character (ASCII fragment, which covers the
character classes this regex can accept). -/
def wordChar (c : Char) : Bool := c.isAlphanum || c = '_'

/-- The character class [-a-zA-Z0-9@:%._\+~#=] (host part). -/
def hostChar (c : Char) : Bool :=
  c.isAlphanum || c = '-' || c = '@' || c = ':' || c = '%' || c = '.' ||
    c = '_' || c = '+' || c = '~' || c = '#' || c = '='

/-- The character class [a-zA-Z0-9()] (top level domain part). -/
def tldChar (c : Char) : Bool := c.isAlphanum || c = '(' || c = ')'

/-- The character class [-a-zA-Z0-9()@:%_\+.~#?&=/] (path part). -/
def pathChar (c : Char) : Bool :=
  c.isAlphanum || c = '-' || c = '(' || c = ')' || c = '@' || c = ':' ||
    c = '%' || c = '_' || c = '+' || c = '.' || c = '~' || c = '#' ||
    c = '?' || c = '&' || c = '=' || c = '/'

/-- Does the literal pattern pat occur in s at position i. -/
def matchesAt (s : List Char) (i : Nat) (pat : List Char) : Bool :=
  ((s.drop i).take pat.length) == pat

/-- Length of the maximal run of characters of class p starting at i. -/
def clsRun (p : Char → Bool) (s : List Char) (i : Nat) : Nat :=
  ((s.drop i).takeWhile p).length

/-- Python re \b at position i: exactly one of the neighbouring
characters is a word character (a position outside the string counts
as a non word character). -/
def wordBoundaryAt (s : List Char) (i : Nat) : Bool :=
  let prev := if i = 0 then false else wordChar (s.getD (i - 1) ' ')
  let next := wordChar (s.getD i ' ')
  prev != next

/-- The tail (?:[-a-zA-Z0-9()@:%_\+.~#?&=/]*)$ matched from position q:
the path class run must reach the end of the string, or stop exactly
before a trailing newline (the Python $ anchor without MULTILINE). -/
def tailOk (s : List Char) (q : Nat) : Bool :=
  let e := q + clsRun pathChar s q
  e == s.length || (e + 1 == s.length && s.getD e ' ' == '\n')

/-- [a-zA-Z0-9()]\x7b1,6\x7d\b followed by the path tail, matched from
position j, trying every admissible repetition count. -/
def tldOk (s : List Char) (j : Nat) : Bool :=
  let r2 := clsRun tldChar s j
  (List.range (min 6 r2)).any fun m0 =>
    let q := j + m0 + 1
    wordBoundaryAt s q && tailOk s q

/-- [-a-zA-Z0-9@:%._\+~#=]\x7b1,256\x7d\. followed by the rest, matched
from position i, trying every admissible repetition count. -/
def hostOk (s : List Char) (i : Nat) : Bool :=
  let r1 := clsRun hostChar s i
  (List.range (min 256 r1)).any fun k0 =>
    let k := k0 + 1
    s.getD (i + k) ' ' == '.' && tldOk s (i + k + 1)

/-- (?:www\.)? : both the consuming and the non consuming branch. -/
def afterScheme (s : List Char) (i : Nat) : Bool :=
  (matchesAt s i ['w', 'w', 'w', '.'] && hostOk s (i + 4)) || hostOk s i

/-- DownloadThread.url_regex.match(spec) as a Boolean: anchored match
of ^https?:// then the host, TLD and path parts. -/
def urlRegexMatch (s : String) : Bool :=
  let l := s.data
  matchesAt l 0 ['h', 't', 't', 'p'] &&
    ((matchesAt l 4 ['s', ':', '/', '/'] && afterScheme l 8) ||
     (matchesAt l 4 [':', '/', '/'] && afterScheme l 7))

theorem urlRegexMatch_remote_example :
    urlRegexMatch "https://cdn.example.com/builds/app.manifest" = true := by
  decide

theorem urlRegexMatch_local_example :
    urlRegexMatch "/tmp/game.manifest" = false := by
  decide

theorem urlRegexMatch_www_example :
    urlRegexMatch "http://www.example.org" = true := by
  decide

theorem urlRegexMatch_no_scheme_example :
    urlRegexMatch "cdn.example.com/app.manifest" = false := by
  decide

/- ----------------------------------------------------------------
   The job body DownloadThread.run (src/main.py lines 58-91), modelled
   as a trace of the observable events it performs, as a function of
   the outcomes of its external collaborators (the HTTP library, the
   filesystem, the two manifest decoders of the legendary library, and
   the transfer engine DLManager.run).
   ---------------------------------------------------------------- -/

/-- WorkInfo (src/main.py lines 28-32). -/
structure WorkInfo where
  base_url : String
  manifest : String
  download_location : String
deriving DecidableEq

/-- Raw manifest payload bytes. -/
abbrev ByteSeq := List Nat

/-- Opaque decoded manifest object (Manifest / JSONManifest result);
only its identity matters to the orchestration layer. -/
abbrev MObj := Nat

/-- Outcome of requests.get(spec, stream=True) followed by
resp.content: either a response with an HTTP status code and a body
(requests does not raise on a non success status), or a raised
requests.RequestException (transport level failure). -/
inductive FetchResult
  | ok (status : Nat) (body : ByteSeq)
  | requestException (msg : String)
deriving DecidableEq

/-- Outcome of open(spec, "rb") followed by f.read(): the bytes of the
file, a raised FileNotFoundError, or any other raised OSError such as
a permission error. -/
inductive ReadResult
  | ok (body : ByteSeq)
  | fileNotFound
  | otherError (msg : String)
deriving DecidableEq

/-- Outcome of Manifest.read_all / JSONManifest.read_all on a given
payload: a decoded manifest or a raised exception message. -/
inductive DecodeResult
  | ok (m : MObj)
  | error (msg : String)
deriving DecidableEq

/-- Outcome of the blocking DLManager.run() call: normal return,
a raised SystemExit (the graceful exit observed on cancellation), or
any other raised exception. -/
inductive EngineResult
  | normal
  | systemExit
  | raised (msg : String)
deriving DecidableEq

/-- The environment of external outcomes one execution of the job body
encounters.  The decoders are functions of the payload they are fed. -/
structure Env where
  fetch : FetchResult
  read : ReadResult
  primary : ByteSeq → DecodeResult
  fallback : ByteSeq → DecodeResult
  engine : EngineResult

/-- Observable events of one execution of the job body, in program
order.  emitFinished is the explicit self.finished.emit() call of the
finally block; uncaughtRaise records an exception that escapes the job
body uncaught. -/
inductive Ev
  | logInfo (s : String)
  | logError (s : String)
  | httpGet (u : String)
  | openFile (p : String)
  | tryPrimaryDecode
  | tryFallbackDecode
  | runAnalysis (m : MObj)
  | engineRun
  | emitFinished
  | uncaughtRaise (msg : String)
deriving DecidableEq

/-- src/main.py lines 84-91: run_analysis on the decoded manifest, then
manager.run() inside try/except SystemExit/finally finished.emit().
A SystemExit is swallowed; any other engine exception escapes after the
finally block has emitted the finished signal. -/
def afterDecode (env : Env) (m : MObj) : List Ev :=
  Ev.runAnalysis m ::
    match env.engine with
    | .normal => [Ev.engineRun, Ev.emitFinished]
    | .systemExit => [Ev.engineRun, Ev.emitFinished]
    | .raised e => [Ev.engineRun, Ev.emitFinished, Ev.uncaughtRaise e]

/-- src/main.py lines 75-82: try Manifest.read_all(data); on any
exception try JSONManifest.read_all(data); on any exception there, log
the second error and return. -/
def afterAcquire (env : Env) (data : ByteSeq) : List Ev :=
  match env.primary data with
  | .ok m => Ev.tryPrimaryDecode :: afterDecode env m
  | .error _ =>
    match env.fallback data with
    | .ok m => Ev.tryPrimaryDecode :: Ev.tryFallbackDecode :: afterDecode env m
    | .error e =>
      [Ev.tryPrimaryDecode, Ev.tryFallbackDecode,
        Ev.logError ("Error parsing manifest: " ++ e)]

/-- DownloadThread.run (src/main.py lines 58-91).  The URL branch logs,
fetches, and on a requests.RequestException logs the error and returns;
the body of the response is used with no inspection of the HTTP status.
The local branch opens the file, and catches only FileNotFoundError;
any other read error escapes uncaught. -/
def run (env : Env) (w : WorkInfo) : List Ev :=
  if urlRegexMatch w.manifest then
    Ev.logInfo "Downloading manifest from URL..." :: Ev.httpGet w.manifest ::
      match env.fetch with
      | .ok _ body => afterAcquire env body
      | .requestException e => [Ev.logError ("Error downloading manifest: " ++ e)]
  else
    Ev.openFile w.manifest ::
      match env.read with
      | .ok data => afterAcquire env data
      | .fileNotFound => [Ev.logError "Manifest file not found."]
      | .otherError e => [Ev.uncaughtRaise e]

/-- Recognisers for event kinds, and the count of explicit terminal
finished emissions in a trace. -/
def isEmitFinishedEv : Ev → Bool
  | Ev.emitFinished => true
  | _ => false

def isEngineRunEv : Ev → Bool
  | Ev.engineRun => true
  | _ => false

def isHttpGetEv : Ev → Bool
  | Ev.httpGet _ => true
  | _ => false

def isOpenFileEv : Ev → Bool
  | Ev.openFile _ => true
  | _ => false

def isDecodeAttemptEv : Ev → Bool
  | Ev.tryPrimaryDecode => true
  | Ev.tryFallbackDecode => true
  | _ => false

def isUncaughtEv : Ev → Bool
  | Ev.uncaughtRaise _ => true
  | _ => false

def emitCount (t : List Ev) : Nat := (t.filter isEmitFinishedEv).length

/- ----------------------------------------------------------------
   The window callbacks MainWindow.closeEvent (src/main.py lines
   234-238) and MainWindow.download_finished (lines 212-218), and
   DownloadThread.kill (lines 103-105), modelled as traces of the
   actions they perform.
   ---------------------------------------------------------------- -/

/-- The slice of the external DLManager the orchestration layer
touches: the running flag it assigns, and the process id stored in the
_parent_pid field.  Modelled from the spec: the referent of that pid is
internal to the external engine; per the spec it is the handle of the
engine owned worker process that cancellation must terminate. -/
structure DLManager where
  running : Bool
  parent_pid : Nat
deriving DecidableEq

/-- The slice of DownloadThread the window callbacks touch. -/
structure DownloadThread where
  manager : DLManager
deriving DecidableEq

/-- The slice of MainWindow state the shutdown path reads:
self.download_thread, which init_ui (src/main.py line 128) sets to None
and download_file (line 199) sets to the created thread. -/
structure MainWindow where
  download_thread : Option DownloadThread
deriving DecidableEq

/-- Actions performed by the window callbacks, in program order. -/
inductive Act
  | setRunning (b : Bool)
  | sigterm (pid : Nat)
  | superClose
  | enableDownloadButton (b : Bool)
  | setProgressBarValue (n : Int)
  | setProgressLabel (s : String)
  | setSpeedLabel (s : String)
deriving DecidableEq

/-- DownloadThread.kill (src/main.py lines 103-105):
os.kill(self.manager._parent_pid, signal.SIGTERM). -/
def DownloadThread.kill (t : DownloadThread) : Act :=
  Act.sigterm t.manager.parent_pid

/-- MainWindow.closeEvent (src/main.py lines 234-238): when a download
thread exists, set the engine running flag false then kill; in every
case fall through to super().closeEvent(event). -/
def closeEvent (w : MainWindow) : List Act :=
  (match w.download_thread with
   | some t => [Act.setRunning false, t.kill]
   | none => []) ++ [Act.superClose]

/-- MainWindow.download_finished (src/main.py lines 212-218), the slot
connected to the download thread finished signal: reset the widgets,
set the engine running flag false, then kill. -/
def download_finished (t : DownloadThread) : List Act :=
  [Act.enableDownloadButton true, Act.setProgressBarValue 0,
   Act.setProgressLabel "Download Finished", Act.setSpeedLabel "",
   Act.setRunning false, t.kill]

/- ----------------------------------------------------------------
   UpdateProgress (src/main.py lines 34-39) and
   DownloadThread.update_progress (lines 93-101).
   ---------------------------------------------------------------- -/

/-- The fields of the engine UIUpdate sample that the orchestration
layer reads (rates in bytes per second, progress in percent); rationals
model the exact arithmetic (division by the powers of two involved is
exact in the floating point of the source as well, outside underflow). -/
structure UIUpdate where
  progress : ℚ
  download_speed : ℚ
  read_speed : ℚ
  write_speed : ℚ
deriving DecidableEq

/-- The progress event forwarded to the caller via progress_signal. -/
structure ProgressEvent where
  fraction : ℚ
  downloadRate : ℚ
  readRate : ℚ
  writeRate : ℚ
deriving DecidableEq

/-- UpdateProgress.put (src/main.py lines 38-39): the put of the queue
interface immediately and synchronously invokes the callback with the
item.  The state of the conduit is modelled as the list of samples that
have been delivered to the callback so far: put appends the new item to
it.  Nothing is stored in the object itself. -/
def UpdateProgress.put (delivered : List UIUpdate) (item : UIUpdate) :
    List UIUpdate :=
  delivered ++ [item]

/-- DownloadThread.update_progress (src/main.py lines 93-101): a falsy
(absent) sample is dropped; otherwise the three byte rates are divided
by 1024 twice and the progress fraction is forwarded unchanged. -/
def update_progress (progress : Option UIUpdate) : Option ProgressEvent :=
  match progress with
  | none => none
  | some p =>
    some ⟨p.progress, p.download_speed / 1024 / 1024,
      p.read_speed / 1024 / 1024, p.write_speed / 1024 / 1024⟩

/- ----------------------------------------------------------------
   Concrete environments used by counterexamples and witnesses.
   ---------------------------------------------------------------- -/

/-- A remote job request (manifest spec matching the URL pattern). -/
def wRemote : WorkInfo :=
  { base_url := "https://epicgames-download1.akamaized.net/Builds/Fortnite/CloudDir/"
    manifest := "https://cdn.example.com/builds/app.manifest"
    download_location := "/tmp/out" }

/-- A local job request (manifest spec not matching the URL pattern). -/
def wLocal : WorkInfo :=
  { base_url := ""
    manifest := "/tmp/game.manifest"
    download_location := "/tmp/out" }

/-- Environment where the remote fetch raises a transport error. -/
def envFetchErr : Env :=
  { fetch := FetchResult.requestException "connection refused"
    read := ReadResult.fileNotFound
    primary := fun _ => DecodeResult.error "invalid binary manifest"
    fallback := fun _ => DecodeResult.error "invalid json manifest"
    engine := EngineResult.normal }

/-- Environment where the remote fetch returns HTTP 404 with an error
page body that neither decoder accepts. -/
def envHttp404 : Env :=
  { fetch := FetchResult.ok 404 [52, 48, 52]
    read := ReadResult.fileNotFound
    primary := fun _ => DecodeResult.error "invalid binary manifest"
    fallback := fun _ => DecodeResult.error "invalid json manifest"
    engine := EngineResult.normal }

/-- Environment where the local read raises a permission error. -/
def envPermErr : Env :=
  { fetch := FetchResult.requestException "unused"
    read := ReadResult.otherError "PermissionError 13 Permission denied"
    primary := fun _ => DecodeResult.error "invalid binary manifest"
    fallback := fun _ => DecodeResult.error "invalid json manifest"
    engine := EngineResult.normal }

/-- Environment where the local read succeeds. -/
def envReadOk : Env :=
  { fetch := FetchResult.requestException "unused"
    read := ReadResult.ok [10, 20]
    primary := fun _ => DecodeResult.ok 7
    fallback := fun _ => DecodeResult.error "invalid json manifest"
    engine := EngineResult.normal }

/-- Environment where both decoders fail on every payload. -/
def envBothFail : Env :=
  { fetch := FetchResult.requestException "unused"
    read := ReadResult.ok [1]
    primary := fun _ => DecodeResult.error "primary boom"
    fallback := fun _ => DecodeResult.error "fallback boom"
    engine := EngineResult.normal }

/- ----------------------------------------------------------------
   Helper lemmas about the decode and engine stage of the job body.
   ---------------------------------------------------------------- -/

/-- The decode and engine stage emits the finished signal exactly once
when the engine run is reached and never otherwise. -/
theorem emitCount_afterAcquire (env : Env) (d : ByteSeq) :
    emitCount (afterAcquire env d) =
      cond ((afterAcquire env d).any isEngineRunEv) 1 0 := by
  unfold afterAcquire afterDecode
  cases env.primary d <;> cases env.fallback d <;> cases env.engine <;> rfl

/-- The decode and engine stage performs no remote fetch. -/
theorem afterAcquire_no_httpGet (env : Env) (d : ByteSeq) :
    (afterAcquire env d).any isHttpGetEv = false := by
  unfold afterAcquire afterDecode
  cases env.primary d <;> cases env.fallback d <;> cases env.engine <;> rfl

/-- The decode and engine stage performs no local file read. -/
theorem afterAcquire_no_openFile (env : Env) (d : ByteSeq) :
    (afterAcquire env d).any isOpenFileEv = false := by
  unfold afterAcquire afterDecode
  cases env.primary d <;> cases env.fallback d <;> cases env.engine <;> rfl

/-- Two distinct concrete progress samples. -/
def sampleA : UIUpdate :=
  { progress := 0, download_speed := 0, read_speed := 0, write_speed := 0 }

def sampleB : UIUpdate :=
  { progress := 1, download_speed := 2097152, read_speed := 0,
    write_speed := 0 }

/-- Engine directed actions of a window callback: assignments to the
engine running flag and process termination signals. -/
def isEngineAct : Act → Bool
  | Act.setRunning _ => true
  | Act.sigterm _ => true
  | _ => false

/- ----------------------------------------------------------------
   Claim theorems.
   ---------------------------------------------------------------- -/

/-- Claim C1, amended.  The job body emits the terminal finished
notification exactly once if and only if its execution reaches the
engine run (normal completion, cancellation via SystemExit, or an
engine exception, where the finally block emits); when manifest
resolution or decoding fails, the body returns after logging without
emitting any terminal notification, so the count is zero there, not
one as the original claim states. -/
theorem run_terminal_emission_count (env : Env) (w : WorkInfo) :
    emitCount (run env w) = cond ((run env w).any isEngineRunEv) 1 0 := by
  unfold run
  cases urlRegexMatch w.manifest
  · cases env.read
    case ok data =>
      simpa [emitCount, List.filter_cons, isEmitFinishedEv, isEngineRunEv]
        using emitCount_afterAcquire env data
    case fileNotFound => rfl
    case otherError e => rfl
  · cases env.fetch
    case ok st body =>
      simpa [emitCount, List.filter_cons, isEmitFinishedEv, isEngineRunEv]
        using emitCount_afterAcquire env body
    case requestException e => rfl

/-- Claim C1, counterexample to the original statement.  A job whose
remote manifest fetch raises a transport error terminates with zero
terminal notifications emitted by the job body, not exactly one: the
body logs the error and returns before reaching the finally block that
emits the finished signal. -/
theorem run_fetch_error_emits_no_terminal :
    emitCount (run envFetchErr wRemote) = 0 ∧
    run envFetchErr wRemote =
      [Ev.logInfo "Downloading manifest from URL...",
       Ev.httpGet "https://cdn.example.com/builds/app.manifest",
       Ev.logError "Error downloading manifest: connection refused"] := by
  constructor
  · rfl
  · rfl

/-- Claim C2.  The job body never inspects the HTTP status of the
manifest response: on an HTTP 404 whose body is not a valid manifest it
proceeds to attempt both decodes of the 404 body and fails with a parse
error, instead of failing with a fetch error before any decode as the
specification requires. -/
theorem run_http_404_attempts_decode :
    envHttp404.fetch = FetchResult.ok 404 [52, 48, 52] ∧
    run envHttp404 wRemote =
      [Ev.logInfo "Downloading manifest from URL...",
       Ev.httpGet "https://cdn.example.com/builds/app.manifest",
       Ev.tryPrimaryDecode, Ev.tryFallbackDecode,
       Ev.logError "Error parsing manifest: invalid json manifest"] ∧
    (run envHttp404 wRemote).any isDecodeAttemptEv = true := by
  refine ⟨rfl, rfl, rfl⟩

/-- Claim C3, amended.  The decoder stage attempts the primary binary
decode first and uses its result when it succeeds; when the primary
decode fails and the fallback succeeds, the fallback manifest is used
with no error surfaced; when both fail, the job body produces exactly
one error log line carrying the fallback (secondary) decoder error,
whatever the primary error was, and returns without emitting any
terminal event — no ManifestInvalid terminal notification is delivered
to the caller, contrary to the original claim. -/
theorem decode_fallback_policy (env : Env) (d : ByteSeq) :
    (∀ m, env.primary d = DecodeResult.ok m →
      afterAcquire env d = Ev.tryPrimaryDecode :: afterDecode env m) ∧
    (∀ e1 m, env.primary d = DecodeResult.error e1 →
      env.fallback d = DecodeResult.ok m →
      afterAcquire env d =
        Ev.tryPrimaryDecode :: Ev.tryFallbackDecode :: afterDecode env m) ∧
    (∀ e1 e2, env.primary d = DecodeResult.error e1 →
      env.fallback d = DecodeResult.error e2 →
      afterAcquire env d =
        [Ev.tryPrimaryDecode, Ev.tryFallbackDecode,
         Ev.logError ("Error parsing manifest: " ++ e2)] ∧
      emitCount (afterAcquire env d) = 0) := by
  refine ⟨?_, ?_, ?_⟩
  · intro m h
    unfold afterAcquire
    rw [h]
  · intro e1 m h1 h2
    unfold afterAcquire
    rw [h1, h2]
  · intro e1 e2 h1 h2
    constructor
    · unfold afterAcquire
      rw [h1, h2]
    · unfold emitCount afterAcquire
      rw [h1, h2]
      rfl

/-- Claim C3, witness at a concrete environment where both decoders
fail: one error log line carrying the fallback error is produced and
no terminal notification is emitted. -/
theorem decode_fallback_policy_witness :
    (afterAcquire envBothFail [1] =
      [Ev.tryPrimaryDecode, Ev.tryFallbackDecode,
       Ev.logError "Error parsing manifest: fallback boom"]) ∧
    emitCount (afterAcquire envBothFail [1]) = 0 :=
  (decode_fallback_policy envBothFail [1]).2.2 "primary boom" "fallback boom"
    rfl rfl

/-- Claim C3, counterexample to the original statement.  On a job
whose manifest both decoders reject, the job body produces only a log
line with the fallback error and emits zero terminal events, not the
one ManifestInvalid terminal event the original claim states. -/
theorem decode_both_fail_no_terminal_event :
    run envBothFail wLocal =
      [Ev.openFile "/tmp/game.manifest", Ev.tryPrimaryDecode,
       Ev.tryFallbackDecode,
       Ev.logError "Error parsing manifest: fallback boom"] ∧
    emitCount (run envBothFail wLocal) = 0 := by
  constructor
  · rfl
  · rfl

/-- Claim C4.  The job body attempts a remote fetch exactly when the
manifest spec matches the URL pattern, attempts a local file read
exactly when it does not, and for no input attempts both. -/
theorem acquisition_path_dichotomy (env : Env) (w : WorkInfo) :
    ((run env w).any isHttpGetEv = urlRegexMatch w.manifest) ∧
    ((run env w).any isOpenFileEv = !urlRegexMatch w.manifest) ∧
    (((run env w).any isHttpGetEv && (run env w).any isOpenFileEv) = false) := by
  unfold run
  cases urlRegexMatch w.manifest
  · cases env.read
    case ok data =>
      simp [isHttpGetEv, isOpenFileEv, afterAcquire_no_httpGet,
        afterAcquire_no_openFile]
    case fileNotFound => simp [isHttpGetEv, isOpenFileEv]
    case otherError e => simp [isHttpGetEv, isOpenFileEv]
  · cases env.fetch
    case ok st body =>
      simp [isHttpGetEv, isOpenFileEv, afterAcquire_no_httpGet,
        afterAcquire_no_openFile]
    case requestException e => simp [isHttpGetEv, isOpenFileEv]

/-- Claim C5, amended.  The progress conduit has no slot and no drain:
put synchronously delivers every published sample to the callback, so
two successive publishes deliver both samples in order; no sample is
stored in the conduit, and none is overwritten or dropped by it. -/
theorem put_delivers_every_sample (log : List UIUpdate) (a b : UIUpdate) :
    UpdateProgress.put (UpdateProgress.put log a) b = log ++ [a, b] := by
  simp [UpdateProgress.put]

/-- Claim C5, counterexample to the original statement.  After two
publishes with no intervening drain, both samples have been delivered
to the callback, not only the second one as a single slot overwrite
conduit would deliver. -/
theorem put_two_samples_not_latest_only :
    UpdateProgress.put (UpdateProgress.put [] sampleA) sampleB =
      [sampleA, sampleB] ∧
    (UpdateProgress.put (UpdateProgress.put [] sampleA) sampleB ==
      [sampleB]) = false := by
  constructor
  · rfl
  · decide

/-- Claim C6.  The shutdown cancellation path performs exactly two
engine directed steps, in this order: set the engine running flag
false, then send the termination signal to the pid held by the engine
process handle.  The first step is an infallible field assignment in
the source, so the second step is always reached. -/
theorem closeEvent_cancellation_steps (t : DownloadThread) :
    (closeEvent { download_thread := some t }).filter isEngineAct =
      [Act.setRunning false, Act.sigterm t.manager.parent_pid] ∧
    closeEvent { download_thread := some t } =
      [Act.setRunning false, Act.sigterm t.manager.parent_pid,
       Act.superClose] := by
  exact ⟨rfl, rfl⟩

/-- Claim C7, amended.  On the local acquisition path, a successful
read hands the exact file bytes to the decode stage; a missing file
(FileNotFoundError) is caught and the body returns gracefully after
logging; but any other open or read failure is not caught and escapes
the job body as an uncaught fault, contrary to the original claim. -/
theorem local_read_error_handling (env : Env) (w : WorkInfo)
    (hu : urlRegexMatch w.manifest = false) :
    (∀ data, env.read = ReadResult.ok data →
      run env w = Ev.openFile w.manifest :: afterAcquire env data) ∧
    (env.read = ReadResult.fileNotFound →
      run env w = [Ev.openFile w.manifest,
        Ev.logError "Manifest file not found."]) ∧
    (∀ e, env.read = ReadResult.otherError e →
      run env w = [Ev.openFile w.manifest, Ev.uncaughtRaise e]) := by
  refine ⟨?_, ?_, ?_⟩
  · intro data h
    unfold run
    rw [hu, h]
    rfl
  · intro h
    unfold run
    rw [hu, h]
    rfl
  · intro e h
    unfold run
    rw [hu, h]
    rfl

/-- Claim C7, witness at a concrete local job whose read succeeds. -/
theorem local_read_error_handling_witness :
    run envReadOk wLocal =
      Ev.openFile "/tmp/game.manifest" :: afterAcquire envReadOk [10, 20] :=
  (local_read_error_handling envReadOk wLocal (by decide)).1 [10, 20] rfl

/-- Claim C7, counterexample to the original statement.  A permission
style read failure on a local manifest path escapes the job body as an
uncaught fault instead of failing the job with the manifest
unavailable handling. -/
theorem local_permission_error_uncaught :
    run envPermErr wLocal =
      [Ev.openFile "/tmp/game.manifest",
       Ev.uncaughtRaise "PermissionError 13 Permission denied"] ∧
    (run envPermErr wLocal).any isUncaughtEv = true := by
  constructor
  · rfl
  · rfl

/-- Claim C8.  Every forwarded progress event divides each of the
three byte per second rates by exactly 1048576 and forwards the
progress fraction unchanged. -/
theorem update_progress_unit_conversion (p : UIUpdate) :
    update_progress (some p) =
      some ⟨p.progress, p.download_speed / 1048576,
        p.read_speed / 1048576, p.write_speed / 1048576⟩ := by
  simp only [update_progress, Option.some.injEq, ProgressEvent.mk.injEq,
    div_div]
  norm_num

/-- Claim C9.  A shutdown request arriving when no download thread was
ever created performs no engine directed action at all, and the
callback still completes by falling through to the superclass close
handling. -/
theorem closeEvent_no_thread_noop :
    (closeEvent { download_thread := none }).filter isEngineAct = [] ∧
    closeEvent { download_thread := none } = [Act.superClose] := by
  exact ⟨rfl, rfl⟩

/-- Claim C10.  The terminal event handler, connected to the finished
signal of the download thread for every outcome including normal
completion, always sets the engine running flag false and then sends
the termination signal to the pid held by the engine process handle;
these are exactly its engine directed actions, in that order. -/
theorem download_finished_stops_engine (t : DownloadThread) :
    (download_finished t).filter isEngineAct =
      [Act.setRunning false, Act.sigterm t.manager.parent_pid] ∧
    (download_finished t).getLast? =
      some (Act.sigterm t.manager.parent_pid) := by
  exact ⟨rfl, rfl⟩

end Emd
